import Mathlib

/-!
Verification of the nearest-cell risk classifier of the
location-risk-alert repository.

The classifier `checkRiskLevel` lives in `src/components/RiskMap.tsx`
(Leaflet variant, lines 157-191; Mapbox variant, lines 363-402) and in
`src/components/RiskMapContent.tsx` (lines 196-235).  Given a query
point `(lon, lat)` it scans the loaded grid cells, computes for each
the Euclidean distance from the query point to the cell center, keeps
the strictly closest cell seen so far (initial minimum `Infinity`),
and, when a nearest cell was found, reports its `Dominant_Risk` label
through the `onRiskChange` callback and raises a severity-styled toast.

Embedding conventions:
* JavaScript numbers are modelled by `ℚ`.  A grid-cell coordinate is a
  `CoordVal`: an actual number, or the null that `Papa.parse` with
  `dynamicTyping` produces for an empty CSV field, or undefined (the
  value of an absent column).  JavaScript coerces null to `0` in
  subtraction, so a null coordinate yields a finite distance; only
  undefined yields NaN.  `toNumber` captures this coercion, with
  `none` standing for NaN; every `<` comparison against NaN is false,
  which the embedding reflects by making `updateNearest` keep its
  state when the distance is `none`.
* The source compares `Math.sqrt` of the sums of squares.  Square root
  is strictly monotone on nonnegative reals, so the branch taken by
  `distance < minDistance` coincides with comparing the radicands;
  the fold therefore carries the squared distance, and the theorems
  about minimality are additionally stated through `Real.sqrt` to
  match the source formula literally.
* The lookup `riskMessages[label]` walks the prototype chain: for a
  label naming a member inherited from `Object.prototype` (such as
  "toString") it finds a truthy function or object, so the
  `|| "Unknown risk level"` fallback does not fire; `riskMessage`
  models this with `MessageVal.protoMember`.
-/

namespace LocationRiskAlert

/-- A grid-cell coordinate as it sits in a parsed CSV row: an actual
number, the null that `Papa.parse` with `dynamicTyping` yields for an
empty field, or undefined for an absent column. -/
inductive CoordVal where
  | num : ℚ → CoordVal
  | null : CoordVal
  | undef : CoordVal
deriving DecidableEq, Repr

/-- The JavaScript ToNumber coercion applied by the subtraction
`grid.Grid_Center_Lon - lon`: a number stays itself, null coerces to
`0`, and undefined becomes NaN (modelled by `none`). -/
def toNumber : CoordVal → Option ℚ
  | CoordVal.num x => some x
  | CoordVal.null => some 0
  | CoordVal.undef => none

/-- Whether the coordinate holds an actual number (not null, not
undefined). -/
def CoordVal.isNum : CoordVal → Bool
  | CoordVal.num _ => true
  | _ => false

/-- The `GridData` record of `RiskMap.tsx` / `RiskMapContent.tsx`
(one parsed CSV row). -/
structure GridData where
  Grid_Center_Lon : CoordVal
  Grid_Center_Lat : CoordVal
  Dominant_Risk : String
  Low_Count : ℚ
  Moderate_Count : ℚ
  High_Count : ℚ
deriving DecidableEq, Repr

/-- Squared Euclidean distance from the query point `(lon, lat)` to the
center of cell `g`, mirroring
`Math.pow(grid.Grid_Center_Lon - lon, 2) + Math.pow(grid.Grid_Center_Lat - lat, 2)`
after ToNumber coercion of each coordinate: a null coordinate enters
the formula as `0`; an undefined coordinate makes the whole distance
NaN (`none`). -/
def distSq (g : GridData) (lon lat : ℚ) : Option ℚ :=
  match toNumber g.Grid_Center_Lon, toNumber g.Grid_Center_Lat with
  | some glon, some glat => some ((glon - lon) ^ 2 + (glat - lat) ^ 2)
  | _, _ => none

/-- One iteration of the `gridData.forEach` loop of `checkRiskLevel`
(Leaflet variant): the state is `none` for
`nearestGrid = null, minDistance = Infinity` and `some (g, m)` for
`nearestGrid = g, minDistance = m` (with `m` the squared distance).
A NaN distance (`none`) never satisfies `distance < minDistance`, so
the state is kept; a finite distance always beats `Infinity`. -/
def updateNearest (lon lat : ℚ) (st : Option (GridData × ℚ)) (g : GridData) :
    Option (GridData × ℚ) :=
  match distSq g lon lat with
  | none => st
  | some d =>
    match st with
    | none => some (g, d)
    | some (ng, m) => if d < m then some (g, d) else some (ng, m)

/-- The nearest-cell search loop of `checkRiskLevel` (Leaflet variant,
`RiskMap.tsx` lines 158-170): final `(nearestGrid, minDistance)`,
or `none` when `nearestGrid` is still null after the loop. -/
def findNearest (cells : List GridData) (lon lat : ℚ) : Option (GridData × ℚ) :=
  cells.foldl (updateNearest lon lat) none

/-- The value `checkRiskLevel` passes to `onRiskChange`, when it calls
it at all: the `Dominant_Risk` of the nearest cell, or `none` when no
cell was selected (then `onRiskChange` is not invoked). -/
def checkRiskLevel (cells : List GridData) (lon lat : ℚ) : Option String :=
  (findNearest cells lon lat).map (fun p => p.1.Dominant_Risk)

/-- The value the lookup `(riskMessages as any)[risk]` can feed to a
toast: a string (an own property of `riskMessages`, or the fallback),
or a truthy member inherited from `Object.prototype` (a function or
object such as `toString`), identified by its property name. -/
inductive MessageVal where
  | str : String → MessageVal
  | protoMember : String → MessageVal
deriving DecidableEq, Repr

/-- A toast raised by `checkRiskLevel`: severity, message value and,
for `error` / `warning`, the explicit duration in milliseconds. -/
inductive Toast where
  | error : MessageVal → ℕ → Toast
  | warning : MessageVal → ℕ → Toast
  | success : MessageVal → Toast
deriving DecidableEq, Repr

/-- The property names every plain object literal inherits from
`Object.prototype`; each is bound to a function or object, which is
truthy. -/
def objectPrototypeMembers : List String :=
  ["constructor", "hasOwnProperty", "isPrototypeOf", "propertyIsEnumerable",
   "toLocaleString", "toString", "valueOf", "__proto__", "__defineGetter__",
   "__defineSetter__", "__lookupGetter__", "__lookupSetter__"]

/-- The `riskMessages` lookup together with its `|| "Unknown risk level"`
fallback (`RiskMap.tsx` lines 175-181): the own properties Low /
Moderate / High are found first; a label naming an inherited
`Object.prototype` member finds that truthy member, so the fallback
does not fire; only for all remaining labels does the lookup yield
undefined and the fallback produce "Unknown risk level". -/
def riskMessage (risk : String) : MessageVal :=
  if risk = "Low" then
    MessageVal.str "You are in a Low risk zone. Stay alert for updates."
  else if risk = "Moderate" then
    MessageVal.str "⚠️ You are in a Moderate risk zone. Monitor conditions closely."
  else if risk = "High" then
    MessageVal.str "🚨 You are in a High risk zone! Take precautions immediately."
  else if risk ∈ objectPrototypeMembers then MessageVal.protoMember risk
  else MessageVal.str "Unknown risk level"

/-- The toast branch of `checkRiskLevel` (`RiskMap.tsx` lines 183-189):
`error` for "High", `warning` for "Moderate", `success` otherwise. -/
def riskToast (risk : String) : Toast :=
  if risk = "High" then Toast.error (riskMessage risk) 10000
  else if risk = "Moderate" then Toast.warning (riskMessage risk) 8000
  else Toast.success (riskMessage risk)

/-- The observable effects of one `checkRiskLevel(lon, lat)` call:
the argument passed to `onRiskChange` (if the callback was invoked at
all) and the toast raised (if any). -/
structure RiskEffects where
  onRiskChange : Option String
  toast : Option Toast
deriving DecidableEq, Repr

/-- Full effect of `checkRiskLevel` (`RiskMap.tsx` lines 157-191):
when `nearestGrid` is null nothing happens; otherwise `onRiskChange`
receives the raw `Dominant_Risk` and a toast is raised. -/
def checkRiskLevelRun (cells : List GridData) (lon lat : ℚ) : RiskEffects :=
  match findNearest cells lon lat with
  | none => ⟨none, none⟩
  | some (g, _) => ⟨some g.Dominant_Risk, some (riskToast g.Dominant_Risk)⟩

/-! ### The duplicated variants

`RiskMap.tsx` contains a second, Mapbox-based component whose
`checkRiskLevel` (lines 363-402) repeats the same loop, and
`RiskMapContent.tsx` (lines 196-235) repeats it a third time.  Each is
transcribed separately below so that their extensional equality is a
statement about three definitions, not one. -/

/-- Loop body of the Mapbox variant (`RiskMap.tsx` lines 368-378). -/
def updateNearestMapbox (lon lat : ℚ) (st : Option (GridData × ℚ)) (g : GridData) :
    Option (GridData × ℚ) :=
  match distSq g lon lat with
  | none => st
  | some d =>
    match st with
    | none => some (g, d)
    | some (ng, m) => if d < m then some (g, d) else some (ng, m)

/-- Nearest-cell search of the Mapbox variant. -/
def findNearestMapbox (cells : List GridData) (lon lat : ℚ) : Option (GridData × ℚ) :=
  cells.foldl (updateNearestMapbox lon lat) none

/-- Label reported by the Mapbox variant. -/
def checkRiskLevelMapbox (cells : List GridData) (lon lat : ℚ) : Option String :=
  (findNearestMapbox cells lon lat).map (fun p => p.1.Dominant_Risk)

/-- Loop body of the `RiskMapContent.tsx` wrapper variant
(lines 201-211). -/
def updateNearestContent (lon lat : ℚ) (st : Option (GridData × ℚ)) (g : GridData) :
    Option (GridData × ℚ) :=
  match distSq g lon lat with
  | none => st
  | some d =>
    match st with
    | none => some (g, d)
    | some (ng, m) => if d < m then some (g, d) else some (ng, m)

/-- Nearest-cell search of the `RiskMapContent.tsx` wrapper variant. -/
def findNearestContent (cells : List GridData) (lon lat : ℚ) : Option (GridData × ℚ) :=
  cells.foldl (updateNearestContent lon lat) none

/-- Label reported by the `RiskMapContent.tsx` wrapper variant. -/
def checkRiskLevelContent (cells : List GridData) (lon lat : ℚ) : Option String :=
  (findNearestContent cells lon lat).map (fun p => p.1.Dominant_Risk)

/-! ### Rendering filter

The marker-rendering effect (`RiskMap.tsx` lines 94-96,
`RiskMapContent.tsx` lines 79-80) skips a cell when either coordinate
is falsy: `if (!grid.Grid_Center_Lon || !grid.Grid_Center_Lat) return;`.
Falsy numbers are `0` and NaN; a missing value is falsy too. -/

/-- JavaScript truthiness of a coordinate value: `0`, null and
undefined are falsy; every other number is truthy. -/
def isTruthyCoord : CoordVal → Bool
  | CoordVal.num x => x ≠ 0
  | _ => false

/-- Whether the map-rendering code draws a marker for cell `g`. -/
def rendersCell (g : GridData) : Bool :=
  isTruthyCoord g.Grid_Center_Lon && isTruthyCoord g.Grid_Center_Lat

/-- The cells actually drawn by the rendering effect. -/
def renderedCells (cells : List GridData) : List GridData :=
  cells.filter rendersCell

/-! ### Session model

After the one-shot CSV load, the only state touched by a location
request is `currentRisk` (via `onRiskChange = setCurrentRisk` in
`pages/Index.tsx`, initial value "unknown") and the user marker; the
grid-cell list is only ever read. -/

/-- The state a session keeps across location requests: the loaded
grid cells and the `currentRisk` value of `pages/Index.tsx`. -/
structure SessionState where
  gridData : List GridData
  currentRisk : String
deriving DecidableEq, Repr

/-- Effect of one location request at query point `q` on the session
state: `checkRiskLevel` runs and, only when it selects a nearest cell,
`onRiskChange` overwrites `currentRisk`.  The grid list is read, never
written. -/
def applyQuery (st : SessionState) (q : ℚ × ℚ) : SessionState :=
  match checkRiskLevel st.gridData q.1 q.2 with
  | none => st
  | some r => { st with currentRisk := r }

/-- A whole session: grid data loaded once, then any sequence of
location requests, starting from the initial risk value "unknown" of
`pages/Index.tsx`. -/
def runSession (g : List GridData) (qs : List (ℚ × ℚ)) : SessionState :=
  qs.foldl applyQuery ⟨g, "unknown"⟩

/-! ### Concrete cells used to instantiate the theorems -/

/-- A cell one unit east of the origin, labelled "Low". -/
def cellA : GridData := ⟨CoordVal.num 1, CoordVal.num 0, "Low", 0, 0, 0⟩

/-- A cell at the origin, labelled "High"; both coordinates are falsy
for the rendering filter. -/
def cellB : GridData := ⟨CoordVal.num 0, CoordVal.num 0, "High", 0, 0, 0⟩

/-- A cell whose longitude column is absent (undefined) after
parsing. -/
def cellNoLon : GridData := ⟨CoordVal.undef, CoordVal.num 5, "High", 0, 0, 0⟩

/-- A cell whose longitude field parsed to null (empty CSV field under
`dynamicTyping`); the null coerces to `0` in the distance formula. -/
def cellNullLon : GridData := ⟨CoordVal.null, CoordVal.num 5, "X", 0, 0, 0⟩

/-- A far-away cell with ordinary numeric coordinates. -/
def cellFar : GridData := ⟨CoordVal.num 100, CoordVal.num 100, "Y", 0, 0, 0⟩

/-- The cell of the specification scenario: center (72.82, 19.365),
dominant risk "High". -/
def specCell : GridData :=
  ⟨CoordVal.num (7282 / 100), CoordVal.num (19365 / 1000), "High", 0, 0, 0⟩

/-- A cell carrying a label outside Low / Moderate / High that is also
not an `Object.prototype` member name. -/
def cellSevere : GridData := ⟨CoordVal.num 0, CoordVal.num 0, "Severe", 0, 0, 0⟩

/-- A cell whose label names the inherited `Object.prototype`
member `toString`. -/
def cellToStr : GridData := ⟨CoordVal.num 0, CoordVal.num 0, "toString", 0, 0, 0⟩

/-- `cellA` with different observation counts: the classifier reads
only the coordinates and the label. -/
def cellAOtherCounts : GridData := ⟨CoordVal.num 1, CoordVal.num 0, "Low", 5, 7, 9⟩

/-! ### Agreement relations used for the determinism claim -/

/-- Two cells that the classifier cannot tell apart: same center
coordinates and same dominant-risk label (the observation counts are
never read by `checkRiskLevel`). -/
def sameClassifierView (a b : GridData) : Prop :=
  a.Grid_Center_Lon = b.Grid_Center_Lon ∧ a.Grid_Center_Lat = b.Grid_Center_Lat ∧
    a.Dominant_Risk = b.Dominant_Risk

/-- Corresponding loop states of two classifier runs over cell lists
that agree cell-by-cell up to `sameClassifierView`: same running
minimum and same label of the incumbent nearest cell. -/
def sameSel : Option (GridData × ℚ) → Option (GridData × ℚ) → Prop
  | none, none => True
  | some (g, d), some (g', d') => d = d' ∧ g.Dominant_Risk = g'.Dominant_Risk
  | _, _ => False

/-! ### Characterization of the nearest-cell fold -/

lemma toNumber_isSome_of_isNum {v : CoordVal} (h : v.isNum = true) :
    (toNumber v).isSome := by
  cases v <;> simp_all [CoordVal.isNum, toNumber]

lemma distSq_coords {g : GridData} {lon lat d : ℚ} (h : distSq g lon lat = some d) :
    (toNumber g.Grid_Center_Lon).isSome ∧ (toNumber g.Grid_Center_Lat).isSome := by
  obtain ⟨lonO, latO, r, a, b, c⟩ := g
  cases lonO <;> cases latO <;> simp [distSq, toNumber] at h ⊢

lemma distSq_nonneg {g : GridData} {lon lat d : ℚ} (h : distSq g lon lat = some d) :
    0 ≤ d := by
  obtain ⟨lonO, latO, r, a, b, c⟩ := g
  cases lonO <;> cases latO <;> simp [distSq, toNumber] at h <;>
    (subst h; positivity)

lemma distSq_isSome {g : GridData} (lon lat : ℚ)
    (h1 : (toNumber g.Grid_Center_Lon).isSome) (h2 : (toNumber g.Grid_Center_Lat).isSome) :
    ∃ dx, distSq g lon lat = some dx := by
  obtain ⟨lonO, latO, r, a, b, c⟩ := g
  cases lonO <;> cases latO <;> simp_all [distSq, toNumber]

lemma updateNearest_none_distSq {lon lat : ℚ} {st : Option (GridData × ℚ)}
    {c : GridData} (hd : distSq c lon lat = none) :
    updateNearest lon lat st c = st := by
  simp [updateNearest, hd]

lemma updateNearest_some_none {lon lat : ℚ} {c : GridData} {dc : ℚ}
    (hd : distSq c lon lat = some dc) :
    updateNearest lon lat none c = some (c, dc) := by
  simp [updateNearest, hd]

lemma updateNearest_some_some {lon lat : ℚ} {c g0 : GridData} {dc d0 : ℚ}
    (hd : distSq c lon lat = some dc) :
    updateNearest lon lat (some (g0, d0)) c =
      if dc < d0 then some (c, dc) else some (g0, d0) := by
  simp [updateNearest, hd]

/-- Once the running minimum is finite, later iterations can only
shrink it. -/
lemma fold_min_le_init (lon lat : ℚ) :
    ∀ (cells : List GridData) (g0 : GridData) (d0 : ℚ) (g : GridData) (d : ℚ),
      cells.foldl (updateNearest lon lat) (some (g0, d0)) = some (g, d) → d ≤ d0 := by
  intro cells
  induction cells with
  | nil =>
    intro g0 d0 g d h
    simp only [List.foldl_nil, Option.some.injEq, Prod.mk.injEq] at h
    exact le_of_eq h.2.symm
  | cons c cs ih =>
    intro g0 d0 g d h
    rw [List.foldl_cons] at h
    rcases hd : distSq c lon lat with _ | dc
    · rw [updateNearest_none_distSq hd] at h
      exact ih g0 d0 g d h
    · rw [updateNearest_some_some hd] at h
      by_cases hlt : dc < d0
      · rw [if_pos hlt] at h
        exact le_trans (ih c dc g d h) (le_of_lt hlt)
      · rw [if_neg hlt] at h
        exact ih g0 d0 g d h

/-- The final minimum is below the (finite) distance of every cell in
the scanned list. -/
lemma fold_min_le (lon lat : ℚ) :
    ∀ (cells : List GridData) (st : Option (GridData × ℚ)) (g : GridData) (d : ℚ),
      cells.foldl (updateNearest lon lat) st = some (g, d) →
      ∀ x ∈ cells, ∀ dx : ℚ, distSq x lon lat = some dx → d ≤ dx := by
  intro cells
  induction cells with
  | nil => intro st g d _ x hx; simp at hx
  | cons c cs ih =>
    intro st g d h x hx dx hdx
    rw [List.foldl_cons] at h
    rcases List.mem_cons.mp hx with rfl | hx'
    · cases st with
      | none =>
        rw [updateNearest_some_none hdx] at h
        exact fold_min_le_init lon lat cs x dx g d h
      | some p =>
        obtain ⟨g0, d0⟩ := p
        rw [updateNearest_some_some hdx] at h
        by_cases hlt : dx < d0
        · rw [if_pos hlt] at h
          exact fold_min_le_init lon lat cs x dx g d h
        · rw [if_neg hlt] at h
          exact le_trans (fold_min_le_init lon lat cs g0 d0 g d h) (le_of_not_lt hlt)
    · exact ih _ g d h x hx' dx hdx

/-- The loop ends with `nearestGrid` null exactly when it started null
and every scanned cell had a NaN distance. -/
lemma fold_eq_none (lon lat : ℚ) :
    ∀ (cells : List GridData) (st : Option (GridData × ℚ)),
      cells.foldl (updateNearest lon lat) st = none →
      st = none ∧ ∀ x ∈ cells, distSq x lon lat = none := by
  intro cells
  induction cells with
  | nil => intro st h; exact ⟨h, by simp⟩
  | cons c cs ih =>
    intro st h
    rw [List.foldl_cons] at h
    obtain ⟨hst', hall⟩ := ih _ h
    rcases hd : distSq c lon lat with _ | dc
    · rw [updateNearest_none_distSq hd] at hst'
      refine ⟨hst', fun x hx => ?_⟩
      rcases List.mem_cons.mp hx with rfl | hx'
      · exact hd
      · exact hall x hx'
    · exfalso
      cases st with
      | none => rw [updateNearest_some_none hd] at hst'; exact Option.noConfusion hst'
      | some p =>
        obtain ⟨g0, d0⟩ := p
        rw [updateNearest_some_some hd] at hst'
        by_cases hlt : dc < d0 <;> simp [hlt] at hst'

/-- A selected cell either survived from the initial state or is a
member of the scanned list with the recorded (finite) distance. -/
lemma fold_origin (lon lat : ℚ) :
    ∀ (cells : List GridData) (st : Option (GridData × ℚ)) (g : GridData) (d : ℚ),
      cells.foldl (updateNearest lon lat) st = some (g, d) →
      st = some (g, d) ∨ (g ∈ cells ∧ distSq g lon lat = some d) := by
  intro cells
  induction cells with
  | nil => intro st g d h; left; simpa using h
  | cons c cs ih =>
    intro st g d h
    rw [List.foldl_cons] at h
    rcases ih _ g d h with hst' | ⟨hmem, hdist⟩
    · rcases hd : distSq c lon lat with _ | dc
      · rw [updateNearest_none_distSq hd] at hst'
        exact Or.inl hst'
      · cases st with
        | none =>
          rw [updateNearest_some_none hd] at hst'
          obtain ⟨rfl, rfl⟩ : c = g ∧ dc = d := by simpa using hst'
          exact Or.inr ⟨List.mem_cons_self _ _, hd⟩
        | some p =>
          obtain ⟨g0, d0⟩ := p
          rw [updateNearest_some_some hd] at hst'
          by_cases hlt : dc < d0
          · rw [if_pos hlt] at hst'
            obtain ⟨rfl, rfl⟩ : c = g ∧ dc = d := by simpa using hst'
            exact Or.inr ⟨List.mem_cons_self _ _, hd⟩
          · rw [if_neg hlt] at hst'
            exact Or.inl hst'
    · exact Or.inr ⟨List.mem_cons_of_mem _ hmem, hdist⟩

/-- First-occurrence tie-break: the selected cell comes either from
the initial state or from a decomposition `pre ++ g :: post` of the
list, with every earlier cell strictly farther (the update condition
is strict, so equal distances never displace the incumbent). -/
lemma fold_first (lon lat : ℚ) :
    ∀ (cells : List GridData) (st : Option (GridData × ℚ)) (g : GridData) (d : ℚ),
      cells.foldl (updateNearest lon lat) st = some (g, d) →
      st = some (g, d) ∨
      (∃ pre post, cells = pre ++ g :: post ∧ distSq g lon lat = some d ∧
        (∀ g0 d0, st = some (g0, d0) → d < d0) ∧
        (∀ x ∈ pre, ∀ dx : ℚ, distSq x lon lat = some dx → d < dx)) := by
  intro cells
  induction cells with
  | nil => intro st g d h; left; simpa using h
  | cons c cs ih =>
    intro st g d h
    rw [List.foldl_cons] at h
    rcases ih _ g d h with hst' | ⟨pre, post, hcs, hdg, hstcond, hprecond⟩
    · rcases hd : distSq c lon lat with _ | dc
      · rw [updateNearest_none_distSq hd] at hst'
        exact Or.inl hst'
      · cases st with
        | none =>
          rw [updateNearest_some_none hd] at hst'
          obtain ⟨rfl, rfl⟩ : c = g ∧ dc = d := by simpa using hst'
          refine Or.inr ⟨[], cs, rfl, hd, ?_, by simp⟩
          intro g0 d0 heq
          exact Option.noConfusion heq
        | some p =>
          obtain ⟨g0, d0⟩ := p
          rw [updateNearest_some_some hd] at hst'
          by_cases hlt : dc < d0
          · rw [if_pos hlt] at hst'
            obtain ⟨rfl, rfl⟩ : c = g ∧ dc = d := by simpa using hst'
            refine Or.inr ⟨[], cs, rfl, hd, ?_, by simp⟩
            intro g0' d0' heq
            obtain ⟨rfl, rfl⟩ : g0 = g0' ∧ d0 = d0' := by simpa using heq
            exact hlt
          · rw [if_neg hlt] at hst'
            exact Or.inl hst'
    · refine Or.inr ⟨c :: pre, post, by rw [hcs]; rfl, hdg, ?_, ?_⟩
      · intro g0 d0 hst
        subst hst
        rcases hd : distSq c lon lat with _ | dc
        · exact hstcond g0 d0 (updateNearest_none_distSq hd)
        · rw [updateNearest_some_some hd] at hstcond
          by_cases hlt : dc < d0
          · rw [if_pos hlt] at hstcond
            exact lt_trans (hstcond c dc rfl) hlt
          · rw [if_neg hlt] at hstcond
            exact hstcond g0 d0 rfl
      · intro x hx dx hdx
        rcases List.mem_cons.mp hx with rfl | hx'
        · cases st with
          | none =>
            rw [updateNearest_some_none hdx] at hstcond
            exact hstcond x dx rfl
          | some p =>
            obtain ⟨g0, d0⟩ := p
            rw [updateNearest_some_some hdx] at hstcond
            by_cases hlt : dx < d0
            · rw [if_pos hlt] at hstcond
              exact hstcond x dx rfl
            · rw [if_neg hlt] at hstcond
              exact lt_of_lt_of_le (hstcond g0 d0 rfl) (le_of_not_lt hlt)
        · exact hprecond x hx' dx hdx

/-- Full specification of `findNearest` on a successful run: the
selected cell splits the list at its first minimal occurrence. -/
lemma findNearest_spec {cells : List GridData} {lon lat : ℚ} {g : GridData} {d : ℚ}
    (h : findNearest cells lon lat = some (g, d)) :
    ∃ pre post, cells = pre ++ g :: post ∧ distSq g lon lat = some d ∧ 0 ≤ d ∧
      (∀ x ∈ cells, ∀ dx : ℚ, distSq x lon lat = some dx → d ≤ dx) ∧
      (∀ x ∈ pre, ∀ dx : ℚ, distSq x lon lat = some dx → d < dx) := by
  rcases fold_first lon lat cells none g d h with hcontra | ⟨pre, post, hcs, hdg, _, hpre⟩
  · exact Option.noConfusion hcontra
  · exact ⟨pre, post, hcs, hdg, distSq_nonneg hdg, fold_min_le lon lat cells none g d h, hpre⟩

/-- As soon as one cell has a finite distance, the loop selects some
cell. -/
lemma findNearest_isSome {cells : List GridData} {lon lat : ℚ}
    (hne : ∃ x ∈ cells, (distSq x lon lat).isSome) :
    ∃ p, findNearest cells lon lat = some p := by
  rcases hfn : findNearest cells lon lat with _ | p
  · obtain ⟨_, hall⟩ := fold_eq_none lon lat cells none hfn
    obtain ⟨x, hx, hxs⟩ := hne
    rw [hall x hx] at hxs
    exact absurd hxs (by simp)
  · exact ⟨p, rfl⟩

/-! ### Congruence of the fold under classifier-relevant agreement -/

lemma distSq_congr {a b : GridData} (lon lat : ℚ) (h : sameClassifierView a b) :
    distSq a lon lat = distSq b lon lat := by
  unfold distSq
  rw [h.1, h.2.1]

lemma updateNearest_congr {lon lat : ℚ} {c c' : GridData}
    {st st' : Option (GridData × ℚ)}
    (h : sameClassifierView c c') (hst : sameSel st st') :
    sameSel (updateNearest lon lat st c) (updateNearest lon lat st' c') := by
  have hd : distSq c' lon lat = distSq c lon lat := (distSq_congr lon lat h).symm
  rcases hdc : distSq c lon lat with _ | dc
  · rw [updateNearest_none_distSq hdc, updateNearest_none_distSq (hd.trans hdc)]
    exact hst
  · have hdc' : distSq c' lon lat = some dc := hd.trans hdc
    cases st with
    | none =>
      cases st' with
      | none =>
        rw [updateNearest_some_none hdc, updateNearest_some_none hdc']
        exact ⟨rfl, h.2.2⟩
      | some p =>
        obtain ⟨g0, d0⟩ := p
        exact hst.elim
    | some p =>
      obtain ⟨g0, d0⟩ := p
      cases st' with
      | none => exact hst.elim
      | some p' =>
        obtain ⟨g0', d0'⟩ := p'
        obtain ⟨hdd, hrr⟩ := hst
        subst hdd
        rw [updateNearest_some_some hdc, updateNearest_some_some hdc']
        by_cases hlt : dc < d0
        · rw [if_pos hlt, if_pos hlt]
          exact ⟨rfl, h.2.2⟩
        · rw [if_neg hlt, if_neg hlt]
          exact ⟨rfl, hrr⟩

lemma fold_updateNearest_congr (lon lat : ℚ) :
    ∀ (cells cells' : List GridData), List.Forall₂ sameClassifierView cells cells' →
      ∀ (st st' : Option (GridData × ℚ)), sameSel st st' →
        sameSel (cells.foldl (updateNearest lon lat) st)
          (cells'.foldl (updateNearest lon lat) st') := by
  intro cells cells' hf
  induction hf with
  | nil => intro st st' hst; exact hst
  | cons hcc _ ih =>
    intro st st' hst
    rw [List.foldl_cons, List.foldl_cons]
    exact ih _ _ (updateNearest_congr hcc hst)

/-! ### Session-state lemmas -/

lemma applyQuery_gridData (st : SessionState) (q : ℚ × ℚ) :
    (applyQuery st q).gridData = st.gridData := by
  unfold applyQuery
  rcases h : checkRiskLevel st.gridData q.1 q.2 with _ | r <;> simp [h]

lemma fold_applyQuery_gridData :
    ∀ (qs : List (ℚ × ℚ)) (st : SessionState),
      (qs.foldl applyQuery st).gridData = st.gridData := by
  intro qs
  induction qs with
  | nil => intro st; rfl
  | cons q qs ih =>
    intro st
    rw [List.foldl_cons, ih, applyQuery_gridData]

/-! ### The claims -/

/-- C1, counterexample: for `cells = []` and query `(0, 0)` the code
does not report "Unknown" to the caller.  `nearestGrid` stays null, the
`if (nearestGrid)` guard fails, and `onRiskChange` is never invoked:
the run produces no callback argument and no toast, so in particular
the value reported is not the label "Unknown". -/
theorem empty_cells_reports_nothing_cex :
    checkRiskLevelRun [] 0 0 = ⟨none, none⟩ ∧
    ¬ (checkRiskLevelRun [] 0 0).onRiskChange = some "Unknown" := by
  exact ⟨rfl, by decide⟩

/-- C1, amended: for an empty cell list `checkRiskLevel` reports
nothing at all — `onRiskChange` is not called and no toast is raised,
for every query point; the caller keeps its previous risk value
(initially "unknown", displayed as the Unknown state). -/
theorem empty_cells_reports_nothing (lon lat : ℚ) :
    checkRiskLevelRun [] lon lat = ⟨none, none⟩ ∧ checkRiskLevel [] lon lat = none :=
  ⟨rfl, rfl⟩

/-- C3: for a non-empty cell list whose cells all carry numeric center
coordinates, the classifier reports the `Dominant_Risk` of some member
of the list. -/
theorem checkRiskLevel_label_from_member (cells : List GridData) (lon lat : ℚ)
    (hne : cells ≠ [])
    (hall : ∀ g ∈ cells, (g.Grid_Center_Lon).isNum ∧ (g.Grid_Center_Lat).isNum) :
    ∃ g ∈ cells, checkRiskLevel cells lon lat = some g.Dominant_Risk := by
  obtain ⟨c, hc⟩ : ∃ c, c ∈ cells := List.exists_mem_of_ne_nil cells hne
  obtain ⟨dc, hdc⟩ := distSq_isSome lon lat
    (toNumber_isSome_of_isNum (hall c hc).1) (toNumber_isSome_of_isNum (hall c hc).2)
  obtain ⟨⟨g, d⟩, hfn⟩ := findNearest_isSome ⟨c, hc, by rw [hdc]; rfl⟩
  rcases fold_origin lon lat cells none g d hfn with hcontra | ⟨hmem, _⟩
  · exact absurd hcontra (by simp)
  · exact ⟨g, hmem, by rw [checkRiskLevel, hfn]; rfl⟩

/-- C3, witness at a concrete two-cell list and the origin query. -/
theorem checkRiskLevel_label_from_member_witness :
    (([cellA, cellB] : List GridData) ≠ [] ∧
      ∀ g ∈ [cellA, cellB], (g.Grid_Center_Lon).isNum ∧ (g.Grid_Center_Lat).isNum) ∧
    ∃ g ∈ [cellA, cellB], checkRiskLevel [cellA, cellB] 0 0 = some g.Dominant_Risk :=
  ⟨⟨by decide, by decide⟩,
    checkRiskLevel_label_from_member [cellA, cellB] 0 0 (by decide) (by decide)⟩

/-- C4: a cell whose center coincides with the query point is
selected, provided no other cell of the list is also at distance zero
from the query. -/
theorem exact_center_cell_selected (cells : List GridData) (lon lat : ℚ) (c : GridData)
    (hc : c ∈ cells)
    (hlon : c.Grid_Center_Lon = CoordVal.num lon)
    (hlat : c.Grid_Center_Lat = CoordVal.num lat)
    (huniq : ∀ g ∈ cells, distSq g lon lat = some 0 → g = c) :
    checkRiskLevel cells lon lat = some c.Dominant_Risk := by
  have hdc : distSq c lon lat = some 0 := by
    simp [distSq, toNumber, hlon, hlat]
  obtain ⟨⟨g, d⟩, hfn⟩ := findNearest_isSome ⟨c, hc, by rw [hdc]; rfl⟩
  obtain ⟨pre, post, hcs, hdg, hd0, hmin, _⟩ := findNearest_spec hfn
  have hdle : d ≤ 0 := hmin c hc 0 hdc
  have hdeq : d = 0 := le_antisymm hdle hd0
  have hgmem : g ∈ cells := by
    rw [hcs]
    exact List.mem_append_right _ (List.mem_cons_self _ _)
  have hgc : g = c := huniq g hgmem (by rw [← hdeq]; exact hdg)
  rw [checkRiskLevel, hfn, hgc]
  rfl

/-- C4, witness: the specification scenario — a single cell at
(72.82, 19.365) labelled "High", queried at exactly that point,
yields "High". -/
theorem exact_center_cell_selected_witness :
    (specCell ∈ [specCell] ∧
      specCell.Grid_Center_Lon = CoordVal.num (7282 / 100) ∧
      specCell.Grid_Center_Lat = CoordVal.num (19365 / 1000) ∧
      ∀ g ∈ [specCell], distSq g (7282 / 100) (19365 / 1000) = some 0 → g = specCell) ∧
    checkRiskLevel [specCell] (7282 / 100) (19365 / 1000) = some "High" :=
  ⟨⟨by simp, rfl, rfl, fun g hg _ => List.mem_singleton.mp hg⟩,
    exact_center_cell_selected [specCell] (7282 / 100) (19365 / 1000) specCell
      (by simp) rfl rfl (fun g hg _ => List.mem_singleton.mp hg)⟩

/-- C6: the grid-cell list is read-only for the whole session — after
loading, any sequence of location requests (each running
`checkRiskLevel` and possibly updating `currentRisk`) leaves the grid
data exactly as loaded. -/
theorem session_gridData_readonly (g : List GridData) (qs : List (ℚ × ℚ)) :
    (runSession g qs).gridData = g := by
  unfold runSession
  rw [fold_applyQuery_gridData]

/-- C10: the three duplicated `checkRiskLevel` implementations (the
Leaflet variant, the Mapbox variant of `RiskMap.tsx`, and the variant
of `RiskMapContent.tsx`) are extensionally equal: on every cell list
and query point they select the same nearest cell and report the same
label. -/
theorem checkRiskLevel_variants_agree (cells : List GridData) (lon lat : ℚ) :
    findNearestMapbox cells lon lat = findNearest cells lon lat ∧
    findNearestContent cells lon lat = findNearest cells lon lat ∧
    checkRiskLevelMapbox cells lon lat = checkRiskLevel cells lon lat ∧
    checkRiskLevelContent cells lon lat = checkRiskLevel cells lon lat :=
  ⟨rfl, rfl, rfl, rfl⟩

/-- C2: on a cell list with numeric coordinates, the classifier
selects the cell minimizing the Euclidean distance
`sqrt((cellLon - lon)^2 + (cellLat - lat)^2)` — equivalently the
radicand `distSq` — breaking ties in favour of the first such cell in
iteration order (every cell strictly before the selected one is
strictly farther), and reports that cell's `Dominant_Risk`. -/
theorem checkRiskLevel_selects_first_minimum (cells : List GridData) (lon lat : ℚ)
    (hne : cells ≠ [])
    (hall : ∀ g ∈ cells, (g.Grid_Center_Lon).isNum ∧ (g.Grid_Center_Lat).isNum) :
    ∃ (pre post : List GridData) (g : GridData) (d : ℚ),
      cells = pre ++ g :: post ∧
      distSq g lon lat = some d ∧
      checkRiskLevel cells lon lat = some g.Dominant_Risk ∧
      (∀ x ∈ cells, ∀ dx : ℚ, distSq x lon lat = some dx →
        Real.sqrt (d : ℝ) ≤ Real.sqrt (dx : ℝ)) ∧
      (∀ x ∈ pre, ∀ dx : ℚ, distSq x lon lat = some dx →
        Real.sqrt (d : ℝ) < Real.sqrt (dx : ℝ)) := by
  obtain ⟨c, hc⟩ : ∃ c, c ∈ cells := List.exists_mem_of_ne_nil cells hne
  obtain ⟨dc, hdc⟩ := distSq_isSome lon lat
    (toNumber_isSome_of_isNum (hall c hc).1) (toNumber_isSome_of_isNum (hall c hc).2)
  obtain ⟨⟨g, d⟩, hfn⟩ := findNearest_isSome ⟨c, hc, by rw [hdc]; rfl⟩
  obtain ⟨pre, post, hcs, hdg, hd0, hmin, hpre⟩ := findNearest_spec hfn
  refine ⟨pre, post, g, d, hcs, hdg, by rw [checkRiskLevel, hfn]; rfl, ?_, ?_⟩
  · intro x hx dx hdx
    exact Real.sqrt_le_sqrt (by exact_mod_cast hmin x hx dx hdx)
  · intro x hx dx hdx
    exact Real.sqrt_lt_sqrt (by exact_mod_cast hd0) (by exact_mod_cast hpre x hx dx hdx)

/-- C2, witness at a concrete two-cell list: the cell at the origin is
strictly nearer to the origin query than the cell at (1, 0). -/
theorem checkRiskLevel_selects_first_minimum_witness :
    (([cellA, cellB] : List GridData) ≠ [] ∧
      ∀ g ∈ [cellA, cellB], (g.Grid_Center_Lon).isNum ∧ (g.Grid_Center_Lat).isNum) ∧
    ∃ (pre post : List GridData) (g : GridData) (d : ℚ),
      [cellA, cellB] = pre ++ g :: post ∧
      distSq g 0 0 = some d ∧
      checkRiskLevel [cellA, cellB] 0 0 = some g.Dominant_Risk ∧
      (∀ x ∈ [cellA, cellB], ∀ dx : ℚ, distSq x 0 0 = some dx →
        Real.sqrt (d : ℝ) ≤ Real.sqrt (dx : ℝ)) ∧
      (∀ x ∈ pre, ∀ dx : ℚ, distSq x 0 0 = some dx →
        Real.sqrt (d : ℝ) < Real.sqrt (dx : ℝ)) :=
  ⟨⟨by decide, by decide⟩,
    checkRiskLevel_selects_first_minimum [cellA, cellB] 0 0 (by decide) (by decide)⟩

/-- C5: the classifier applies no coordinate filter — a cell the
rendering code skips (falsy, here zero, coordinates) still takes part
in the distance computation and is selected when it is the strict
nearest, even though it is absent from the rendered cells. -/
theorem classifier_considers_unrendered_cells (cells : List GridData) (lon lat : ℚ)
    (c : GridData) (hc : c ∈ cells) (hnr : rendersCell c = false)
    (hlon : (c.Grid_Center_Lon).isNum) (hlat : (c.Grid_Center_Lat).isNum)
    (hstrict : ∀ g ∈ cells, g ≠ c → ∀ dg dc : ℚ, distSq g lon lat = some dg →
      distSq c lon lat = some dc → dc < dg) :
    checkRiskLevel cells lon lat = some c.Dominant_Risk ∧ c ∉ renderedCells cells := by
  obtain ⟨dc, hdc⟩ := distSq_isSome lon lat
    (toNumber_isSome_of_isNum hlon) (toNumber_isSome_of_isNum hlat)
  obtain ⟨⟨g, d⟩, hfn⟩ := findNearest_isSome ⟨c, hc, by rw [hdc]; rfl⟩
  rcases fold_origin lon lat cells none g d hfn with hcontra | ⟨hmem, hdg⟩
  · exact absurd hcontra (by simp)
  have hmin := fold_min_le lon lat cells none g d hfn
  have hgc : g = c := by
    by_contra hne
    exact absurd (hstrict g hmem hne d dc hdg hdc) (not_lt.mpr (hmin c hc dc hdc))
  constructor
  · rw [checkRiskLevel, hfn, hgc]
    rfl
  · intro hmemr
    have hrc : rendersCell c = true :=
      List.of_mem_filter (show c ∈ cells.filter rendersCell from hmemr)
    rw [hnr] at hrc
    exact Bool.noConfusion hrc

/-- C5, witness: the single cell at the origin has both coordinates
falsy, is skipped by the renderer, yet the classifier selects it. -/
theorem classifier_considers_unrendered_cells_witness :
    (cellB ∈ [cellB] ∧ rendersCell cellB = false ∧
      (cellB.Grid_Center_Lon).isNum ∧ (cellB.Grid_Center_Lat).isNum) ∧
    checkRiskLevel [cellB] 0 0 = some "High" ∧ cellB ∉ renderedCells [cellB] :=
  ⟨⟨by simp, by decide, by decide, by decide⟩,
    classifier_considers_unrendered_cells [cellB] 0 0 cellB (by simp) (by decide)
      (by decide) (by decide)
      (fun g hg hne _ _ _ _ => absurd (List.mem_singleton.mp hg) hne)⟩

/-- C7: the classifier is deterministic — its output depends only on
the inputs it reads (each cell's coordinates and label, in list order,
and the query point); in particular two runs on the same cell list and
query point report the same label. -/
theorem checkRiskLevel_deterministic (cells cells' : List GridData) (lon lat : ℚ)
    (h : List.Forall₂ sameClassifierView cells cells') :
    checkRiskLevel cells lon lat = checkRiskLevel cells' lon lat := by
  have hsel := fold_updateNearest_congr lon lat cells cells' h none none (by trivial)
  unfold checkRiskLevel findNearest
  rcases h1 : cells.foldl (updateNearest lon lat) none with _ | p <;>
    rcases h2 : cells'.foldl (updateNearest lon lat) none with _ | p'
  · rfl
  · rw [h1, h2] at hsel
    obtain ⟨g', d'⟩ := p'
    exact hsel.elim
  · rw [h1, h2] at hsel
    obtain ⟨g, d⟩ := p
    exact hsel.elim
  · rw [h1, h2] at hsel
    obtain ⟨g, d⟩ := p
    obtain ⟨g', d'⟩ := p'
    obtain ⟨hdd, hrr⟩ := hsel
    simp only [Option.map_some']
    rw [hrr]

/-- C7, witness: the same cell with different observation counts (the
fields the classifier never reads) yields the same report. -/
theorem checkRiskLevel_deterministic_witness :
    List.Forall₂ sameClassifierView [cellA] [cellAOtherCounts] ∧
    checkRiskLevel [cellA] 0 0 = checkRiskLevel [cellAOtherCounts] 0 0 :=
  ⟨List.Forall₂.cons ⟨rfl, rfl, rfl⟩ List.Forall₂.nil,
    checkRiskLevel_deterministic [cellA] [cellAOtherCounts] 0 0
      (List.Forall₂.cons ⟨rfl, rfl, rfl⟩ List.Forall₂.nil)⟩

/-- C8, counterexample: the nearest cell of this run carries the label
"toString" — not "Low", "Moderate" or "High" — yet the toast text is
not "Unknown risk level": the lookup `riskMessages["toString"]` finds
the truthy `toString` function inherited from `Object.prototype`, so
the `||` fallback never fires and the success toast carries that
inherited member.  The raw label is still passed to `onRiskChange`. -/
theorem unknown_label_passthrough_cex :
    (checkRiskLevelRun [cellToStr] 0 0).onRiskChange = some "toString" ∧
    (checkRiskLevelRun [cellToStr] 0 0).toast =
      some (Toast.success (MessageVal.protoMember "toString")) ∧
    (checkRiskLevelRun [cellToStr] 0 0).toast ≠
      some (Toast.success (MessageVal.str "Unknown risk level")) := by
  refine ⟨?_, ?_, ?_⟩ <;>
    simp [checkRiskLevelRun, findNearest, updateNearest, distSq, toNumber,
      cellToStr, riskToast, riskMessage, objectPrototypeMembers]

/-- C8, amended: when the nearest cell carries a label other than
"Low", "Moderate" or "High", the raw label is still passed verbatim to
`onRiskChange` (no normalization to "Unknown"), and the toast falls
through to the success-styled branch; its text is "Unknown risk level"
provided the label is also not one of the property names inherited
from `Object.prototype` (for those labels the truthy inherited member
suppresses the fallback). -/
theorem unknown_label_passthrough (cells : List GridData) (lon lat : ℚ)
    (g : GridData) (d : ℚ)
    (hfn : findNearest cells lon lat = some (g, d))
    (h1 : g.Dominant_Risk ≠ "Low") (h2 : g.Dominant_Risk ≠ "Moderate")
    (h3 : g.Dominant_Risk ≠ "High")
    (h4 : g.Dominant_Risk ∉ objectPrototypeMembers) :
    (checkRiskLevelRun cells lon lat).onRiskChange = some g.Dominant_Risk ∧
    (checkRiskLevelRun cells lon lat).toast =
      some (Toast.success (MessageVal.str "Unknown risk level")) := by
  unfold checkRiskLevelRun
  rw [hfn]
  exact ⟨rfl, by simp [riskToast, riskMessage, h1, h2, h3, h4]⟩

/-- C8, witness: a cell labelled "Severe" (no own property, no
inherited member of that name) is reported verbatim and produces the
success toast "Unknown risk level". -/
theorem unknown_label_passthrough_witness :
    (findNearest [cellSevere] 0 0 = some (cellSevere, 0) ∧
      cellSevere.Dominant_Risk ≠ "Low" ∧ cellSevere.Dominant_Risk ≠ "Moderate" ∧
      cellSevere.Dominant_Risk ≠ "High" ∧
      cellSevere.Dominant_Risk ∉ objectPrototypeMembers) ∧
    (checkRiskLevelRun [cellSevere] 0 0).onRiskChange = some "Severe" ∧
    (checkRiskLevelRun [cellSevere] 0 0).toast =
      some (Toast.success (MessageVal.str "Unknown risk level")) :=
  ⟨⟨by simp [findNearest, updateNearest, distSq, toNumber, cellSevere], by decide,
      by decide, by decide, by decide⟩,
    unknown_label_passthrough [cellSevere] 0 0 cellSevere 0
      (by simp [findNearest, updateNearest, distSq, toNumber, cellSevere]) (by decide)
      (by decide) (by decide) (by decide)⟩

/-- C9, counterexample: a cell whose longitude parsed to null (empty
CSV field under `dynamicTyping`) is selected even though another cell
of the list has numeric coordinates with a finite distance.  JavaScript
coerces null to `0` in the subtraction, so the first cell of
`[cellNullLon, cellFar]` has distance `sqrt((0-0)^2 + (5-5)^2) = 0`
from the query `(0, 5)`, beats `Infinity`, and `cellFar` at distance
`sqrt(19025)` does not displace it: the null-coordinate cell wins and
its label "X" is reported. -/
theorem missing_coord_cell_never_selected_cex :
    cellNullLon.Grid_Center_Lon = CoordVal.null ∧
    cellNullLon ∈ [cellNullLon, cellFar] ∧
    ((cellFar.Grid_Center_Lon).isNum ∧ (cellFar.Grid_Center_Lat).isNum) ∧
    findNearest [cellNullLon, cellFar] 0 5 = some (cellNullLon, 0) ∧
    checkRiskLevel [cellNullLon, cellFar] 0 5 = some "X" := by
  refine ⟨rfl, by simp, ⟨by decide, by decide⟩, ?_, ?_⟩ <;>
    norm_num [checkRiskLevel, findNearest, updateNearest, distSq, toNumber,
      cellNullLon, cellFar]

/-- C9, amended: a cell with an undefined center coordinate is never
the selected cell when at least one cell of the list yields a finite
distance: only undefined coerces to NaN (whose strict comparison
against the running minimum never succeeds), so some finite-distance
cell is selected and it differs from every undefined-coordinate cell.
A null coordinate, by contrast, coerces to `0`, yields a finite
distance, and such a cell can be selected. -/
theorem missing_coord_cell_never_selected (cells : List GridData) (lon lat : ℚ)
    (c : GridData) (hc : c ∈ cells)
    (hmiss : c.Grid_Center_Lon = CoordVal.undef ∨ c.Grid_Center_Lat = CoordVal.undef)
    (hfin : ∃ g ∈ cells,
      (toNumber g.Grid_Center_Lon).isSome ∧ (toNumber g.Grid_Center_Lat).isSome) :
    ∃ g d, findNearest cells lon lat = some (g, d) ∧
      (toNumber g.Grid_Center_Lon).isSome ∧ (toNumber g.Grid_Center_Lat).isSome ∧
      g ≠ c := by
  obtain ⟨x, hx, hx1, hx2⟩ := hfin
  obtain ⟨dx, hdx⟩ := distSq_isSome lon lat hx1 hx2
  obtain ⟨⟨g, d⟩, hfn⟩ := findNearest_isSome ⟨x, hx, by rw [hdx]; rfl⟩
  rcases fold_origin lon lat cells none g d hfn with hcontra | ⟨_, hdg⟩
  · exact absurd hcontra (by simp)
  obtain ⟨hg1, hg2⟩ := distSq_coords hdg
  refine ⟨g, d, hfn, hg1, hg2, ?_⟩
  intro hgc
  subst hgc
  rcases hmiss with hm | hm
  · rw [hm] at hg1
    simp [toNumber] at hg1
  · rw [hm] at hg2
    simp [toNumber] at hg2

/-- C9, witness: with one undefined-longitude cell and one numeric
cell, a finite-distance cell is selected and the undefined-coordinate
cell is not. -/
theorem missing_coord_cell_never_selected_witness :
    (cellNoLon ∈ [cellNoLon, cellB] ∧
      (cellNoLon.Grid_Center_Lon = CoordVal.undef ∨
        cellNoLon.Grid_Center_Lat = CoordVal.undef) ∧
      ∃ g ∈ [cellNoLon, cellB],
        (toNumber g.Grid_Center_Lon).isSome ∧ (toNumber g.Grid_Center_Lat).isSome) ∧
    ∃ g d, findNearest [cellNoLon, cellB] 0 0 = some (g, d) ∧
      (toNumber g.Grid_Center_Lon).isSome ∧ (toNumber g.Grid_Center_Lat).isSome ∧
      g ≠ cellNoLon :=
  ⟨⟨by decide, by decide, by decide⟩,
    missing_coord_cell_never_selected [cellNoLon, cellB] 0 0 cellNoLon (by decide)
      (by decide) (by decide)⟩

end LocationRiskAlert
